import Mathlib

/-!
Verification development for the xwrf repository: a shallow embedding of the
coordinate/grid reconciliation and diagnostic-derivation pipeline
(src/xwrf/diagnostics.py, src/xwrf/grid.py, src/xwrf/io_plugin.py), together
with theorems settling the frozen claims about that code.

Modelling conventions:
- xarray datasets become explicit records of insertion-ordered association
  lists (variable name to variable), mirroring Python dict semantics;
- machine floats become exact rationals, since every claimed formula is plain
  pointwise arithmetic;
- Python exceptions become an explicit `PyErr` value threaded through
  `Except`; a raised exception is `Except.error`, while a normally returned
  value (even if that value happens to be an exception object, as in
  io_plugin.py line 145) is `Except.ok`;
- external collaborators (the pyproj transformer, the pandas timestamp
  reader) are modelled as explicit parameters or as faithful renderings of
  the documented format, and are marked as such at their definitions.
-/

/-- Python exception values raised by the embedded code. -/
inductive PyErr where
  | keyError (key : String)
  | valueError (msg : String)
  | attributeError (msg : String)
  | notImplementedError (msg : String)
deriving DecidableEq

deriving instance DecidableEq for Except

/-- Lookup in an insertion-ordered association list keyed by strings
(Python dict lookup). -/
def alookup {β : Type} : List (String × β) → String → Option β
  | [], _ => none
  | (k, v) :: rest, n => if k = n then some v else alookup rest n

/-- Update-or-append in an insertion-ordered association list
(Python dict item assignment: replaces in place, else appends). -/
def aset {β : Type} : List (String × β) → String → β → List (String × β)
  | [], k, v => [(k, v)]
  | (k2, v2) :: rest, k, v =>
    if k2 = k then (k, v) :: rest else (k2, v2) :: aset rest k v

/-- Key removal from an insertion-ordered association list
(Python dict item deletion). -/
def adel {β : Type} : List (String × β) → String → List (String × β)
  | [], _ => []
  | (k2, v) :: rest, k =>
    if k2 = k then adel rest k else (k2, v) :: adel rest k

/-- A variable of the dataset fed to the diagnostic deriver: a flat numeric
array (element count stands in for shape, since every claimed operation is
pointwise) together with its attribute mapping. -/
structure DVar where
  data : List ℚ
  attrs : List (String × String)
deriving DecidableEq

/-- The dataset seen by src/xwrf/diagnostics.py: named variables plus
dataset-level attributes. -/
structure Dataset where
  vars : List (String × DVar)
  attrs : List (String × String)
deriving DecidableEq

/-- Python subscript read `dataset[k]`: raises `KeyError` when absent. -/
def getItem (ds : Dataset) (k : String) : Except PyErr DVar :=
  match alookup ds.vars k with
  | some v => .ok v
  | none => .error (.keyError k)

/-- Python subscript assignment `dataset[k] = v`. -/
def setItem (ds : Dataset) (k : String) (v : DVar) : Dataset :=
  { ds with vars := aset ds.vars k v }

/-- Python `del dataset[k]`. -/
def delItem (ds : Dataset) (k : String) : Dataset :=
  { ds with vars := adel ds.vars k }

/-- diagnostics.py lines 14-17: the dask guard is a stub that returns True
unconditionally (its body is a TODO). -/
def _check_if_dask (_dataarray : DVar) : Bool :=
  true

/-- The variable written as `air_potential_temperature`:
`dataset["T"] + 300` with fixed attributes (diagnostics.py lines 37-41). -/
def aptVar (t : DVar) : DVar :=
  ⟨t.data.map (fun q => q + 300),
   [("units", "K"), ("standard_name", "air_potential_temperature")]⟩

/-- The variable written as `air_pressure`: `dataset["P"] + dataset["PB"]`,
units taken from the units attribute of `P` with default Pa
(diagnostics.py lines 47-51). -/
def apVar (p pb : DVar) : DVar :=
  ⟨List.zipWith (fun a b => a + b) p.data pb.data,
   [("units", (alookup p.attrs "units").getD "Pa"), ("standard_name", "air_pressure")]⟩

/-- The variable written as `geopotential`: `dataset["PH"] + dataset["PHB"]`
(diagnostics.py lines 57-61). -/
def geoVar (ph phb : DVar) : DVar :=
  ⟨List.zipWith (fun a b => a + b) ph.data phb.data,
   [("units", "m**2 s**-2"), ("standard_name", "geopotential")]⟩

/-- The variable written as `geopotential_height`:
`dataset["geopotential"] / 9.81` (diagnostics.py lines 62-66). -/
def geoHtVar (g : DVar) : DVar :=
  ⟨g.data.map (fun q => q / (981 / 100 : ℚ)),
   [("units", "m"), ("standard_name", "geopotential_height")]⟩

/-- Potential-temperature block of `calc_base_diagnostics`
(diagnostics.py lines 35-43). The subscript read inside the guard raises
`KeyError` when `T` is absent, before the guard can skip anything. -/
def diagPotTemp (dataset : Dataset) (drop : Bool) : Except PyErr Dataset :=
  match getItem dataset "T" with
  | .error e => .error e
  | .ok t =>
    if _check_if_dask t then
      let ds1 := setItem dataset "air_potential_temperature" (aptVar t)
      .ok (if drop then delItem ds1 "T" else ds1)
    else .ok dataset

/-- Pressure block of `calc_base_diagnostics` (diagnostics.py lines 45-53).
The `and` between the two guards short-circuits, so `PB` is read only after
the guard on `P` holds. -/
def diagPressure (dataset : Dataset) (drop : Bool) : Except PyErr Dataset :=
  match getItem dataset "P" with
  | .error e => .error e
  | .ok p =>
    if _check_if_dask p then
      match getItem dataset "PB" with
      | .error e => .error e
      | .ok pb =>
        if _check_if_dask pb then
          let ds1 := setItem dataset "air_pressure" (apVar p pb)
          .ok (if drop then delItem (delItem ds1 "P") "PB" else ds1)
        else .ok dataset
    else .ok dataset

/-- Geopotential block of `calc_base_diagnostics`
(diagnostics.py lines 55-68): writes `geopotential`, then reads it back to
derive `geopotential_height`, then optionally drops `PH` and `PHB`. -/
def diagGeopotential (dataset : Dataset) (drop : Bool) : Except PyErr Dataset :=
  match getItem dataset "PH" with
  | .error e => .error e
  | .ok ph =>
    if _check_if_dask ph then
      match getItem dataset "PHB" with
      | .error e => .error e
      | .ok phb =>
        if _check_if_dask phb then
          let ds1 := setItem dataset "geopotential" (geoVar ph phb)
          match getItem ds1 "geopotential" with
          | .error e => .error e
          | .ok g =>
            let ds2 := setItem ds1 "geopotential_height" (geoHtVar g)
            .ok (if drop then delItem (delItem ds2 "PH") "PHB" else ds2)
        else .ok dataset
    else .ok dataset

/-- diagnostics.py lines 20-70: `calc_base_diagnostics(dataset, drop)`,
the three derivation blocks in source order. -/
def calc_base_diagnostics (dataset : Dataset) (drop : Bool) : Except PyErr Dataset :=
  match diagPotTemp dataset drop with
  | .error e => .error e
  | .ok ds =>
    match diagPressure ds drop with
    | .error e => .error e
    | .ok ds2 => diagGeopotential ds2 drop

/-- Normal form of `calc_base_diagnostics` on a dataset containing all five
raw variables; proof-support abbreviation whose correctness is established
in `calc_base_diagnostics_eq` below. -/
def calcOutput (ds : Dataset) (drop : Bool) (t p pb ph phb : DVar) : Dataset :=
  let d1 :=
    if drop then delItem (setItem ds "air_potential_temperature" (aptVar t)) "T"
    else setItem ds "air_potential_temperature" (aptVar t)
  let d2 :=
    if drop then delItem (delItem (setItem d1 "air_pressure" (apVar p pb)) "P") "PB"
    else setItem d1 "air_pressure" (apVar p pb)
  let d3 := setItem (setItem d2 "geopotential" (geoVar ph phb))
    "geopotential_height" (geoHtVar (geoVar ph phb))
  if drop then delItem (delItem d3 "PH") "PHB" else d3

/-- Global file attributes read by `_wrf_grid_from_dataset`
(grid.py lines 28-53). `PROJ_ENVI_STRING` is optional because only its
presence is tested (`hasattr`); the remaining attributes are read directly
on whichever dialect branch is taken. -/
structure WRFAttrs where
  PROJ_ENVI_STRING : Option String
  PROJ_NAME : String
  GRID_DX : ℚ
  GRID_DY : ℚ
  PROJ_STANDARD_PAR1 : ℚ
  PROJ_STANDARD_PAR2 : ℚ
  PROJ_CENTRAL_LAT : ℚ
  PROJ_CENTRAL_LON : ℚ
  CEN_LON : ℚ
  CEN_LAT : ℚ
  DX : ℚ
  DY : ℚ
  TRUELAT1 : ℚ
  TRUELAT2 : ℚ
  MOAD_CEN_LAT : ℚ
  STAND_LON : ℚ
  MAP_PROJ : Int
deriving DecidableEq

/-- The `pargs` dict of grid.py lines 22-72: optional fields model keys that
may be deleted (`del pargs[...]` becomes `none`) or added (`lat_ts`, `proj`). -/
structure PArgs where
  x_0 : ℚ
  y_0 : ℚ
  a : ℚ
  b : ℚ
  lat_1 : Option ℚ
  lat_2 : Option ℚ
  lat_0 : Option ℚ
  lon_0 : Option ℚ
  center_lon : Option ℚ
  lat_ts : Option ℚ
  proj : Option String
deriving DecidableEq

/-- grid.py lines 22-53: the dialect branch populating `pargs` before the
projection discriminant is applied (HAR dialect when `PROJ_ENVI_STRING` is
present, canonical WRF dialect otherwise). -/
def wrf_base_pargs (attrs : WRFAttrs) : PArgs :=
  if attrs.PROJ_ENVI_STRING.isSome then
    { x_0 := 0, y_0 := 0, a := 6370000, b := 6370000,
      lat_1 := some attrs.PROJ_STANDARD_PAR1, lat_2 := some attrs.PROJ_STANDARD_PAR2,
      lat_0 := some attrs.PROJ_CENTRAL_LAT, lon_0 := some attrs.PROJ_CENTRAL_LON,
      center_lon := some attrs.PROJ_CENTRAL_LON, lat_ts := none, proj := none }
  else
    { x_0 := 0, y_0 := 0, a := 6370000, b := 6370000,
      lat_1 := some attrs.TRUELAT1, lat_2 := some attrs.TRUELAT2,
      lat_0 := some attrs.MOAD_CEN_LAT, lon_0 := some attrs.STAND_LON,
      center_lon := some attrs.CEN_LON, lat_ts := none, proj := none }

/-- grid.py lines 30-31 and 46-47: the grid spacing read on the dialect
branch. -/
def wrf_dx (attrs : WRFAttrs) : ℚ :=
  if attrs.PROJ_ENVI_STRING.isSome then attrs.GRID_DX else attrs.DX

/-- grid.py lines 30-31 and 46-47, the south-north spacing. -/
def wrf_dy (attrs : WRFAttrs) : ℚ :=
  if attrs.PROJ_ENVI_STRING.isSome then attrs.GRID_DY else attrs.DY

/-- grid.py lines 37-41 and 53: the projection discriminant (`proj_id`).
On the HAR dialect it is 1 for the two Lambert names and 99 otherwise; on
the canonical WRF dialect it is the `MAP_PROJ` attribute. -/
def wrf_proj_id (attrs : WRFAttrs) : Int :=
  if attrs.PROJ_ENVI_STRING.isSome then
    if attrs.PROJ_NAME = "Lambert Conformal Conic" ∨ attrs.PROJ_NAME = "WRF Lambert Conformal"
    then 1 else 99
  else attrs.MAP_PROJ

/-- grid.py lines 55-72: the projection-family selection over `pargs`.
Code 1 keeps Lambert parameters and drops `center_lon`; code 2 is polar
stereographic; code 3 is Mercator; anything else raises
`NotImplementedError`. -/
def wrf_select_projection (pargs : PArgs) (proj_id : Int) : Except PyErr PArgs :=
  if proj_id = 1 then
    .ok { pargs with proj := some "lcc", center_lon := none }
  else if proj_id = 2 then
    .ok { pargs with
            proj := some "stere"
            lat_ts := pargs.lat_1
            lat_0 := some 90
            lat_1 := none
            lat_2 := none
            center_lon := none }
  else if proj_id = 3 then
    .ok { pargs with
            proj := some "merc"
            lat_ts := pargs.lat_1
            lon_0 := pargs.center_lon
            lat_0 := none
            lat_1 := none
            lat_2 := none
            center_lon := none }
  else
    .error (.notImplementedError ("WRF proj not implemented yet: " ++ toString proj_id))

/-- The pyproj coordinate-reference-system object, modelled as carrying the
parameter set it was constructed from (grid.py line 75). -/
structure CRS where
  pargs : PArgs
deriving DecidableEq

/-- Modelled external collaborator (pyproj `CRS.to_cf`): renders the
projection parameters as CF attributes. Only its existence matters to the
claims; no claim inspects its content. -/
def CRS.to_cf (c : CRS) : List (String × String) :=
  match c.pargs.proj with
  | some "lcc" => [("grid_mapping_name", "lambert_conformal_conic")]
  | some "stere" => [("grid_mapping_name", "polar_stereographic")]
  | some "merc" => [("grid_mapping_name", "mercator")]
  | _ => [("grid_mapping_name", "unknown")]

/-- A Python value as it appears in the grid code: a scalar, a string, a 1-d
numeric array, or a CRS object. -/
inductive PyVal where
  | num (q : ℚ)
  | str (s : String)
  | arr (xs : List ℚ)
  | crsObj (c : CRS)
deriving DecidableEq

/-- A variable of the dataset seen by grid.py: named dimensions, data, and
attributes. -/
structure GVar where
  dims : List String
  data : PyVal
  attrs : List (String × String)
deriving DecidableEq

/-- The dataset seen by grid.py: data variables, coordinates, sized
dimensions, and the global attributes of `WRFAttrs`. -/
structure GeoDataset where
  dataVars : List (String × GVar)
  coords : List (String × GVar)
  dims : List (String × Nat)
  attrs : WRFAttrs
deriving DecidableEq

/-- Python `ds.dims[k]` (grid.py lines 78-79): raises `KeyError` when the
dimension is absent. -/
def dimsLookupG (ds : GeoDataset) (k : String) : Except PyErr Nat :=
  match alookup ds.dims k with
  | some n => .ok n
  | none => .error (.keyError k)

/-- Python `ds[k]` on the grid dataset: finds coordinates and data
variables alike (grid.py lines 82-83). -/
def getVarG (ds : GeoDataset) (k : String) : Except PyErr GVar :=
  match alookup ds.coords k with
  | some v => .ok v
  | none =>
    match alookup ds.dataVars k with
    | some v => .ok v
    | none => .error (.keyError k)

/-- Python `v[0]` on a 1-d array variable (grid.py lines 82-83). -/
def arrFirst (v : GVar) : Except PyErr ℚ :=
  match v.data with
  | .arr (x :: _) => .ok x
  | _ => .error (.valueError "index 0 out of bounds")

/-- The four horizontal coordinate arrays of grid.py lines 93-96:
unstaggered `y0 + arange(ny) * dy` and `x0 + arange(nx) * dx`, staggered
`y0 + (arange(ny + 1) - 0.5) * dy` and `x0 + (arange(nx + 1) - 0.5) * dx`. -/
structure GridArrays where
  south_north : List ℚ
  west_east : List ℚ
  south_north_stag : List ℚ
  west_east_stag : List ℚ
deriving DecidableEq

/-- grid.py lines 93-96, as a function of the lower-left corner, spacings,
and dimension counts. -/
def grid_coord_arrays (x0 y0 dx dy : ℚ) (nx ny : Nat) : GridArrays :=
  { south_north := (List.range ny).map (fun (i : Nat) => y0 + (i : ℚ) * dy),
    west_east := (List.range nx).map (fun (i : Nat) => x0 + (i : ℚ) * dx),
    south_north_stag :=
      (List.range (ny + 1)).map (fun (i : Nat) => y0 + ((i : ℚ) - 1/2) * dy),
    west_east_stag :=
      (List.range (nx + 1)).map (fun (i : Nat) => x0 + ((i : ℚ) - 1/2) * dx) }

/-- grid.py lines 19-97: `_wrf_grid_from_dataset(ds)`. The pyproj
transformer of line 86 is an external collaborator and is passed in as the
function `trf` from geographic to projected coordinates. The result is the
returned dict, as an insertion-ordered association list, because the caller
iterates over it (grid.py lines 102-104). -/
def _wrf_grid_from_dataset (trf : ℚ → ℚ → ℚ × ℚ) (ds : GeoDataset) :
    Except PyErr (List (String × PyVal)) := do
  let pargs ← wrf_select_projection (wrf_base_pargs ds.attrs) (wrf_proj_id ds.attrs)
  let crs : CRS := ⟨pargs⟩
  let dx := wrf_dx ds.attrs
  let dy := wrf_dy ds.attrs
  let nx ← dimsLookupG ds "west_east"
  let ny ← dimsLookupG ds "south_north"
  let xy ←
    if ds.attrs.PROJ_ENVI_STRING.isSome then do
      let we ← getVarG ds "west_east"
      let sn ← getVarG ds "south_north"
      let x0 ← arrFirst we
      let y0 ← arrFirst sn
      pure (x0, y0)
    else do
      let en := trf ds.attrs.CEN_LON ds.attrs.CEN_LAT
      pure (-((nx : ℚ) - 1) / 2 * dx + en.1, -((ny : ℚ) - 1) / 2 * dy + en.2)
  let g := grid_coord_arrays xy.1 xy.2 dx dy nx ny
  pure [("crs", .crsObj crs),
        ("south_north", .arr g.south_north),
        ("west_east", .arr g.west_east),
        ("south_north_stag", .arr g.south_north_stag),
        ("west_east_stag", .arr g.west_east_stag)]

/-- Number of array dimensions of a Python value: a plain string or scalar
is 0-dimensional, a 1-d array is 1-dimensional. -/
def pyNdim : PyVal → Nat
  | .arr _ => 1
  | _ => 0

/-- xarray tuple assignment `dataset[name] = (dims, data, attrs)`
(grid.py lines 107-140): raises `ValueError` when the number of named
dimensions does not match the number of data dimensions. -/
def setCoordVar (ds : GeoDataset) (name : String) (dims : List String)
    (v : PyVal) (attrs : List (String × String)) : Except PyErr GeoDataset :=
  if pyNdim v = dims.length then
    .ok { ds with coords := aset ds.coords name ⟨dims, v, attrs⟩ }
  else
    .error (.valueError "different number of dimensions on data and dims")

/-- Python attribute call `x.to_cf()` (grid.py line 143): only a CRS object
has that attribute; on any other value it raises `AttributeError`. -/
def crsToCf : PyVal → Except PyErr (List (String × String))
  | .crsObj c => .ok (CRS.to_cf c)
  | _ => .error (.attributeError "object has no attribute to_cf")

/-- grid.py line 16: the horizontal dimension vocabulary. -/
def _HORIZONTAL_DIMS : List String :=
  ["south_north", "west_east", "south_north_stag", "west_east_stag"]

/-- grid.py lines 144-146: tag every data variable whose dimensions meet the
horizontal dimension set with a `grid_mapping` back-reference. -/
def tag_grid_mapping (ds : GeoDataset) : GeoDataset :=
  { ds with dataVars := ds.dataVars.map (fun p =>
      if p.2.dims.any (fun d => _HORIZONTAL_DIMS.contains d) then
        (p.1, { p.2 with attrs := aset p.2.attrs "grid_mapping" "wrf_projection" })
      else p) }

/-- grid.py lines 100-148: `add_horizontal_projection_coordinates(dataset)`.
Line 102-104 tuple-unpacks the dict returned by `_wrf_grid_from_dataset`;
iterating a Python dict yields its KEYS in insertion order, so the five
local names are bound to the key strings, not to the arrays. Line 112-116
then assigns the local `south_north` (not `west_east`) as the data of the
`west_east` coordinate. Both lines of the source are reproduced here as
written. -/
def add_horizontal_projection_coordinates (trf : ℚ → ℚ → ℚ × ℚ)
    (dataset : GeoDataset) : Except PyErr GeoDataset := do
  let grid ← _wrf_grid_from_dataset trf dataset
  match grid.map Prod.fst with
  | [crs, south_north, _west_east, south_north_stag, west_east_stag] => do
    let dataset ← setCoordVar dataset "south_north" ["south_north"] (.str south_north)
      [("units", "m"), ("standard_name", "projection_y_coordinate"), ("axis", "Y")]
    let dataset ← setCoordVar dataset "west_east" ["west_east"] (.str south_north)
      [("units", "m"), ("standard_name", "projection_x_coordinate"), ("axis", "X")]
    let dataset ←
      if (alookup dataset.dims "south_north_stag").isSome then
        setCoordVar dataset "south_north_stag" ["south_north_stag"] (.str south_north_stag)
          [("units", "m"), ("standard_name", "projection_y_coordinate"), ("axis", "Y"),
           ("c_grid_axis_shift", "0.5")]
      else pure dataset
    let dataset ←
      if (alookup dataset.dims "west_east_stag").isSome then
        setCoordVar dataset "west_east_stag" ["west_east_stag"] (.str west_east_stag)
          [("units", "m"), ("standard_name", "projection_x_coordinate"), ("axis", "X"),
           ("c_grid_axis_shift", "0.5")]
      else pure dataset
    let cf ← crsToCf (.str crs)
    let dataset ← setCoordVar dataset "wrf_projection" [] (.str crs) cf
    pure (tag_grid_mapping dataset)
  | _ => .error (.valueError "unexpected number of values to unpack")

/-- io_plugin.py line 19: the recognized time coordinate names. -/
def _TIME_COORD_VARS : List String :=
  ["XTIME", "Times", "Time", "time"]

/-- Two-digit decimal field of a strptime pattern. -/
def digit2 (a b : Char) : Option Nat :=
  if a.isDigit && b.isDigit then
    some ((a.toNat - 48) * 10 + (b.toNat - 48))
  else none

/-- Four-digit decimal field of a strptime pattern. -/
def digit4 (a b c d : Char) : Option Nat :=
  match digit2 a b, digit2 c d with
  | some hi, some lo => some (hi * 100 + lo)
  | _, _ => none

/-- Leap year of the proleptic Gregorian calendar. -/
def isLeap (y : Nat) : Bool :=
  (y % 4 == 0 && y % 100 != 0) || y % 400 == 0

/-- Days in a month of the proleptic Gregorian calendar. -/
def daysInMonth (y m : Nat) : Nat :=
  if m = 2 then (if isLeap y then 29 else 28)
  else if m = 4 ∨ m = 6 ∨ m = 9 ∨ m = 11 then 30
  else 31

/-- Day count of a proleptic Gregorian civil date, measured from the start
of era 0 (0000-03-01); only differences of these counts matter to the
claims. -/
def daysFromCivil (y m d : Nat) : Nat :=
  let y2 := if m ≤ 2 then y - 1 else y
  let era := y2 / 400
  let yoe := y2 - era * 400
  let mp := (m + 9) % 12
  let doy := (153 * mp + 2) / 5 + d - 1
  let doe := yoe * 365 + yoe / 4 - yoe / 100 + doy
  era * 146097 + doe

/-- Modelled external collaborator (pandas `to_datetime` with format
`%Y-%m-%d_%H:%M:%S`, io_plugin.py lines 56-59): strict parse of one
timestamp string into a second count; `none` on any malformed input. -/
def parseTimestamp (s : String) : Option Nat :=
  match s.toList with
  | [y1, y2, y3, y4, '-', m1, m2, '-', d1, d2, '_', h1, h2, ':', n1, n2, ':', s1, s2] =>
    match digit4 y1 y2 y3 y4, digit2 m1 m2, digit2 d1 d2,
          digit2 h1 h2, digit2 n1 n2, digit2 s1 s2 with
    | some y, some mo, some da, some h, some mi, some se =>
      if 1 ≤ mo ∧ mo ≤ 12 ∧ 1 ≤ da ∧ da ≤ daysInMonth y mo ∧ h ≤ 23 ∧ mi ≤ 59 ∧ se ≤ 59
      then some (daysFromCivil y mo da * 86400 + h * 3600 + mi * 60 + se)
      else none
    | _, _, _, _, _, _ => none
  | _ => none

/-- Modelled external collaborator (pandas `to_datetime` on a list,
io_plugin.py lines 56-59): converts every element or fails as a whole,
matching the library raising on the first malformed element. -/
def to_datetime (bs : List String) : Option (List Nat) :=
  bs.mapM parseTimestamp

/-- Data held by a coordinate variable in io_plugin.py: raw byte strings
(decoded to `String` here, io_plugin.py line 57), decoded times, or plain
numbers. -/
inductive CData where
  | bytes (bs : List String)
  | times (ts : List Nat)
  | nums (xs : List ℚ)
deriving DecidableEq

/-- A coordinate variable of the reconciler: dimensions, data, attributes
and encoding metadata. -/
structure CVar where
  dims : List String
  data : CData
  attrs : List (String × String)
  encoding : List (String × String)
deriving DecidableEq

/-- io_plugin.py lines 52-61 and 71-72, the time branch of the per-coordinate
loop body of `fixup_coords`: for a recognized time coordinate, decode the
byte strings with `to_datetime` inside a bare try/except; on any failure
warn (the returned string list) and leave the variable unchanged; the saved
attributes and encoding are reassigned afterwards. -/
def fixup_time_coord (name : String) (v : CVar) : CVar × List String :=
  if name ∈ _TIME_COORD_VARS then
    match v.data with
    | .bytes bs =>
      match to_datetime bs with
      | some ts => ({ v with data := .times ts }, [])
      | none => (v, ["Failed to parse time coordinate: " ++ name])
    | _ => (v, ["Failed to parse time coordinate: " ++ name])
  else (v, [])

/-- The dataset state acted on by the dimension-coordinate promotion step
of `fixup_coords`: coordinate variables and dimension names. -/
structure CDataset where
  coords : List (String × CVar)
  dims : List String
deriving DecidableEq

/-- The guard of one promotion conditional (io_plugin.py lines 78, 81, 84):
the source coordinate exists, the target dimension exists, and the source
is 1-dimensional; returns the source variable when all three hold. -/
def promoteGuard (ds : CDataset) (src dim : String) : Option CVar :=
  match alookup ds.coords src with
  | some v => if dim ∈ ds.dims ∧ v.dims.length = 1 then some v else none
  | none => none

/-- One promotion conditional of io_plugin.py lines 78-86:
`dataset[dim] = dataset[src]; del dataset[src]` when the guard holds. -/
def promote_one (ds : CDataset) (src dim : String) : CDataset :=
  match promoteGuard ds src dim with
  | some v => { ds with coords := adel (aset ds.coords dim v) src }
  | none => ds

/-- io_plugin.py lines 77-86, the dimension-coordinate promotion step of
`fixup_coords`: ZNU to bottom_top, ZNW to bottom_top_stag, XTIME to Time,
in source order. -/
def promote_dim_coords (ds : CDataset) : CDataset :=
  promote_one (promote_one (promote_one ds "ZNU" "bottom_top")
    "ZNW" "bottom_top_stag") "XTIME" "Time"

/-- The value produced by one `open_dataset` call: either a dataset, or an
exception object RETURNED as an ordinary value (io_plugin.py line 145 writes
`return NotImplementedError(...)`, not `raise`). -/
inductive OpenResult where
  | ds (d : Dataset)
  | exc (e : PyErr)
deriving DecidableEq

/-- io_plugin.py lines 140-147, the tail of
`WRFBackendEntrypoint.open_dataset` after the external NetCDF store has
produced the raw dataset: run `calc_base_diagnostics`, then on
`destagger=True` RETURN (not raise) a `NotImplementedError` object,
otherwise apply the coordinate fixup (passed in as the continuation
`fixup`, since the destagger branch precedes it). -/
def open_dataset (fixup : Dataset → Except PyErr Dataset) (dataset : Dataset)
    (destagger drop_diagnostic_origin_components : Bool) : Except PyErr OpenResult := do
  let dataset ← calc_base_diagnostics dataset drop_diagnostic_origin_components
  if destagger then
    pure (.exc (.notImplementedError "Automatic destaggering not yet implemented"))
  else
    (fixup dataset).map .ds

/-- Identity continuation standing in for the coordinate fixup when only the
destagger branch is under scrutiny. -/
def idFixup : Dataset → Except PyErr Dataset :=
  fun d => .ok d

/-- Concrete raw temperature perturbation variable for witnesses. -/
def tVarEx : DVar := ⟨[1, 2], [("units", "K")]⟩

/-- Concrete raw pressure perturbation variable for witnesses. -/
def pVarEx : DVar := ⟨[10, 20], [("units", "hPa")]⟩

/-- Concrete raw base pressure variable for witnesses. -/
def pbVarEx : DVar := ⟨[5, 6], []⟩

/-- Concrete raw geopotential perturbation variable for witnesses. -/
def phVarEx : DVar := ⟨[100, 200], []⟩

/-- Concrete raw base geopotential variable for witnesses. -/
def phbVarEx : DVar := ⟨[7, 8], []⟩

/-- Concrete bystander variable untouched by the diagnostics. -/
def q2VarEx : DVar := ⟨[3], [("units", "kg kg-1")]⟩

/-- Concrete dataset holding all five raw diagnostic inputs, one bystander
variable, and a dataset-level attribute. -/
def dsAll : Dataset :=
  ⟨[("T", tVarEx), ("P", pVarEx), ("PB", pbVarEx), ("PH", phVarEx),
    ("PHB", phbVarEx), ("Q2", q2VarEx)], [("TITLE", "OUTPUT FROM WRF")]⟩

/-- Concrete dataset containing `T`, `P`, `PB` but missing `PH` and `PHB`. -/
def dsNoPH : Dataset :=
  ⟨[("T", tVarEx), ("P", pVarEx), ("PB", pbVarEx)], []⟩

/-- Concrete canonical-WRF global attributes selecting the Lambert
conformal projection (MAP_PROJ = 1). -/
def attrsLambert : WRFAttrs :=
  { PROJ_ENVI_STRING := none, PROJ_NAME := "", GRID_DX := 0, GRID_DY := 0,
    PROJ_STANDARD_PAR1 := 0, PROJ_STANDARD_PAR2 := 0,
    PROJ_CENTRAL_LAT := 0, PROJ_CENTRAL_LON := 0,
    CEN_LON := -97, CEN_LAT := 40, DX := 3000, DY := 3000,
    TRUELAT1 := 30, TRUELAT2 := 60, MOAD_CEN_LAT := 40, STAND_LON := -97,
    MAP_PROJ := 1 }

/-- The Lambert attributes with the polar-stereographic discriminant. -/
def attrsStere : WRFAttrs := { attrsLambert with MAP_PROJ := 2 }

/-- The Lambert attributes with the Mercator discriminant. -/
def attrsMerc : WRFAttrs := { attrsLambert with MAP_PROJ := 3 }

/-- The Lambert attributes with an unsupported discriminant. -/
def attrsBad : WRFAttrs := { attrsLambert with MAP_PROJ := 4 }

/-- Stand-in for the external pyproj transformer in concrete evaluations:
sends the grid center to the projected origin. -/
def trf0 : ℚ → ℚ → ℚ × ℚ :=
  fun _ _ => (0, 0)

/-- Concrete grid dataset: canonical WRF dialect, Lambert projection,
nx = 10, ny = 8, dx = dy = 3000. -/
def dsLambert : GeoDataset :=
  { dataVars := [("T2", ⟨["Time", "south_north", "west_east"], .arr [], []⟩)],
    coords := [],
    dims := [("west_east", 10), ("south_north", 8), ("Time", 1)],
    attrs := attrsLambert }

/-- First element of a 1-d array value, if any. -/
def pyArrHead : PyVal → Option ℚ
  | .arr xs => xs.head?
  | _ => none

/-- The first entries of the derived west-east unstaggered and staggered
coordinate arrays of the concrete Lambert grid. -/
def gridHeadsLambert : Except PyErr (Option ℚ × Option ℚ) :=
  (_wrf_grid_from_dataset trf0 dsLambert).map (fun g =>
    ((alookup g "west_east").bind pyArrHead,
     (alookup g "west_east_stag").bind pyArrHead))

/-- Concrete time coordinate holding two well-formed byte-string timestamps
one hour apart. -/
def timesVarEx : CVar :=
  ⟨["Time"], .bytes ["2020-01-01_00:00:00", "2020-01-01_01:00:00"],
   [("description", "times")], [("dtype", "S19")]⟩

/-- Concrete time coordinate whose second entry is malformed. -/
def timesVarBad : CVar :=
  ⟨["Time"], .bytes ["2020-01-01_00:00:00", "not-a-date"],
   [("description", "times")], [("dtype", "S19")]⟩

theorem alookup_aset {β : Type} (l : List (String × β)) (k n : String) (v : β) :
    alookup (aset l k v) n = if k = n then some v else alookup l n := by
  induction l with
  | nil => simp only [aset, alookup]
  | cons hd tl ih =>
    obtain ⟨k2, v2⟩ := hd
    by_cases h1 : k2 = k
    · subst h1
      by_cases h2 : k2 = n
      · subst h2
        simp [aset, alookup]
      · simp [aset, alookup, h2]
    · by_cases h2 : k2 = n
      · subst h2
        rw [if_neg (fun h => h1 h.symm)]
        simp [aset, alookup, h1]
      · simp [aset, alookup, h1, h2, ih]

theorem alookup_adel {β : Type} (l : List (String × β)) (k n : String) :
    alookup (adel l k) n = if k = n then none else alookup l n := by
  induction l with
  | nil => simp only [adel, alookup]; split <;> rfl
  | cons hd tl ih =>
    obtain ⟨k2, v2⟩ := hd
    by_cases h1 : k2 = k
    · subst h1
      by_cases h2 : k2 = n
      · subst h2
        simp [adel, alookup, ih]
      · simp [adel, alookup, h2, ih]
    · by_cases h2 : k2 = n
      · subst h2
        rw [if_neg (fun h => h1 h.symm)]
        simp [adel, alookup, h1]
      · simp [adel, alookup, h1, h2, ih]

theorem getItem_setItem (ds : Dataset) (k : String) (v : DVar) (n : String) :
    getItem (setItem ds k v) n = if k = n then .ok v else getItem ds n := by
  unfold getItem setItem
  simp only [alookup_aset]
  by_cases h : k = n <;> simp [h]

theorem getItem_delItem (ds : Dataset) (k n : String) :
    getItem (delItem ds k) n = if k = n then .error (.keyError n) else getItem ds n := by
  unfold getItem delItem
  simp only [alookup_adel]
  by_cases h : k = n <;> simp [h]

theorem attrs_setItem (ds : Dataset) (k : String) (v : DVar) :
    (setItem ds k v).attrs = ds.attrs := rfl

theorem attrs_delItem (ds : Dataset) (k : String) :
    (delItem ds k).attrs = ds.attrs := rfl

theorem diagPotTemp_eq (ds : Dataset) (drop : Bool) (t : DVar)
    (hT : getItem ds "T" = .ok t) :
    diagPotTemp ds drop = .ok
      (if drop then delItem (setItem ds "air_potential_temperature" (aptVar t)) "T"
       else setItem ds "air_potential_temperature" (aptVar t)) := by
  unfold diagPotTemp
  rw [hT]
  simp [_check_if_dask]

theorem diagPressure_eq (ds : Dataset) (drop : Bool) (p pb : DVar)
    (hP : getItem ds "P" = .ok p) (hPB : getItem ds "PB" = .ok pb) :
    diagPressure ds drop = .ok
      (if drop then delItem (delItem (setItem ds "air_pressure" (apVar p pb)) "P") "PB"
       else setItem ds "air_pressure" (apVar p pb)) := by
  unfold diagPressure
  rw [hP]
  simp [_check_if_dask, hPB]

theorem diagGeopotential_eq (ds : Dataset) (drop : Bool) (ph phb : DVar)
    (hPH : getItem ds "PH" = .ok ph) (hPHB : getItem ds "PHB" = .ok phb) :
    diagGeopotential ds drop = .ok
      (if drop then
        delItem (delItem (setItem (setItem ds "geopotential" (geoVar ph phb))
          "geopotential_height" (geoHtVar (geoVar ph phb))) "PH") "PHB"
       else setItem (setItem ds "geopotential" (geoVar ph phb))
          "geopotential_height" (geoHtVar (geoVar ph phb))) := by
  unfold diagGeopotential
  rw [hPH]
  simp [_check_if_dask, hPHB, getItem_setItem]

theorem calc_base_diagnostics_eq (ds : Dataset) (drop : Bool) (t p pb ph phb : DVar)
    (hT : getItem ds "T" = .ok t) (hP : getItem ds "P" = .ok p)
    (hPB : getItem ds "PB" = .ok pb) (hPH : getItem ds "PH" = .ok ph)
    (hPHB : getItem ds "PHB" = .ok phb) :
    calc_base_diagnostics ds drop = .ok (calcOutput ds drop t p pb ph phb) := by
  cases drop with
  | true =>
    have hP1 : getItem (delItem (setItem ds "air_potential_temperature" (aptVar t)) "T")
        "P" = .ok p := by
      simp [getItem_delItem, getItem_setItem, hP]
    have hPB1 : getItem (delItem (setItem ds "air_potential_temperature" (aptVar t)) "T")
        "PB" = .ok pb := by
      simp [getItem_delItem, getItem_setItem, hPB]
    have hPH1 : getItem (delItem (delItem (setItem
        (delItem (setItem ds "air_potential_temperature" (aptVar t)) "T")
        "air_pressure" (apVar p pb)) "P") "PB") "PH" = .ok ph := by
      simp [getItem_delItem, getItem_setItem, hPH]
    have hPHB1 : getItem (delItem (delItem (setItem
        (delItem (setItem ds "air_potential_temperature" (aptVar t)) "T")
        "air_pressure" (apVar p pb)) "P") "PB") "PHB" = .ok phb := by
      simp [getItem_delItem, getItem_setItem, hPHB]
    have h1 := diagPotTemp_eq ds true t hT
    simp only [if_true] at h1
    have h2 := diagPressure_eq _ true p pb hP1 hPB1
    simp only [if_true] at h2
    have h3 := diagGeopotential_eq _ true ph phb hPH1 hPHB1
    simp only [if_true] at h3
    unfold calc_base_diagnostics calcOutput
    simp only [h1, h2, h3, if_true]
  | false =>
    have hP1 : getItem (setItem ds "air_potential_temperature" (aptVar t)) "P" = .ok p := by
      simp [getItem_setItem, hP]
    have hPB1 : getItem (setItem ds "air_potential_temperature" (aptVar t)) "PB" = .ok pb := by
      simp [getItem_setItem, hPB]
    have hPH1 : getItem (setItem (setItem ds "air_potential_temperature" (aptVar t))
        "air_pressure" (apVar p pb)) "PH" = .ok ph := by
      simp [getItem_setItem, hPH]
    have hPHB1 : getItem (setItem (setItem ds "air_potential_temperature" (aptVar t))
        "air_pressure" (apVar p pb)) "PHB" = .ok phb := by
      simp [getItem_setItem, hPHB]
    have h1 := diagPotTemp_eq ds false t hT
    simp only [Bool.false_eq_true, if_false] at h1
    have h2 := diagPressure_eq _ false p pb hP1 hPB1
    simp only [Bool.false_eq_true, if_false] at h2
    have h3 := diagGeopotential_eq _ false ph phb hPH1 hPHB1
    simp only [Bool.false_eq_true, if_false] at h3
    unfold calc_base_diagnostics calcOutput
    simp only [h1, h2, h3, Bool.false_eq_true, if_false]

theorem promote_one_dims (ds : CDataset) (s d : String) :
    (promote_one ds s d).dims = ds.dims := by
  unfold promote_one
  cases h : promoteGuard ds s d <;> simp

theorem promote_one_coords_lookup (ds : CDataset) (s d n : String)
    (h1 : n ≠ s) (h2 : n ≠ d) :
    alookup (promote_one ds s d).coords n = alookup ds.coords n := by
  unfold promote_one
  cases h : promoteGuard ds s d with
  | none => rfl
  | some v =>
    simp [alookup_adel, alookup_aset, Ne.symm h1, Ne.symm h2]

theorem promoteGuard_frame (ds : CDataset) (s d s2 d2 : String)
    (h1 : s2 ≠ s) (h2 : s2 ≠ d) :
    promoteGuard (promote_one ds s d) s2 d2 = promoteGuard ds s2 d2 := by
  unfold promoteGuard
  simp only [promote_one_coords_lookup ds s d s2 h1 h2, promote_one_dims]

theorem promoteGuard_self_none (ds : CDataset) (s d : String) :
    promoteGuard (promote_one ds s d) s d = none := by
  cases h : promoteGuard ds s d with
  | none => simp [promote_one, h]
  | some v =>
    have he : promote_one ds s d = { ds with coords := adel (aset ds.coords d v) s } := by
      simp [promote_one, h]
    rw [he]
    simp [promoteGuard, alookup_adel]

theorem promote_one_noop (ds : CDataset) (s d : String)
    (h : promoteGuard ds s d = none) : promote_one ds s d = ds := by
  simp [promote_one, h]

theorem grid_west_east_getD (x0 y0 dx dy : ℚ) (nx ny i : Nat) (h : i < nx) :
    (grid_coord_arrays x0 y0 dx dy nx ny).west_east.getD i 0 = x0 + (i : ℚ) * dx := by
  simp only [grid_coord_arrays, List.getD_eq_getElem?_getD, List.getElem?_map,
    List.getElem?_range h]
  rfl

theorem grid_west_east_stag_getD (x0 y0 dx dy : ℚ) (nx ny i : Nat) (h : i < nx + 1) :
    (grid_coord_arrays x0 y0 dx dy nx ny).west_east_stag.getD i 0
      = x0 + ((i : ℚ) - 1/2) * dx := by
  simp only [grid_coord_arrays, List.getD_eq_getElem?_getD, List.getElem?_map,
    List.getElem?_range h]
  rfl

/-- Claim C1, counterexample: on a concrete dataset missing `PH` and `PHB`
but containing `T`, `P`, `PB`, `calc_base_diagnostics` raises KeyError for
`PH` instead of skipping the geopotential diagnostics and returning the
dataset, refuting the claimed silent-skip behavior. -/
theorem c1_counterexample :
    calc_base_diagnostics dsNoPH true = .error (.keyError "PH") := by
  rfl

/-- Claim C1, amended: when any of the five raw variables is absent,
`calc_base_diagnostics` raises a KeyError at the lookup of the missing
variable rather than skipping that diagnostic; in particular, with `T`,
`P`, `PB` present and `PH` absent the call fails with KeyError for `PH`
and no dataset is returned. -/
theorem c1_amended (ds : Dataset) (drop : Bool) (t p pb : DVar)
    (hT : getItem ds "T" = .ok t) (hP : getItem ds "P" = .ok p)
    (hPB : getItem ds "PB" = .ok pb) (hPH : alookup ds.vars "PH" = none) :
    calc_base_diagnostics ds drop = .error (.keyError "PH") := by
  have hPHe : getItem ds "PH" = .error (.keyError "PH") := by
    simp [getItem, hPH]
  cases drop with
  | true =>
    have h1 := diagPotTemp_eq ds true t hT
    simp only [if_true] at h1
    have hP1 : getItem (delItem (setItem ds "air_potential_temperature" (aptVar t)) "T")
        "P" = .ok p := by
      simp [getItem_delItem, getItem_setItem, hP]
    have hPB1 : getItem (delItem (setItem ds "air_potential_temperature" (aptVar t)) "T")
        "PB" = .ok pb := by
      simp [getItem_delItem, getItem_setItem, hPB]
    have h2 := diagPressure_eq _ true p pb hP1 hPB1
    simp only [if_true] at h2
    have hPH2 : getItem (delItem (delItem (setItem
        (delItem (setItem ds "air_potential_temperature" (aptVar t)) "T")
        "air_pressure" (apVar p pb)) "P") "PB") "PH" = .error (.keyError "PH") := by
      simp [getItem_delItem, getItem_setItem, hPHe]
    unfold calc_base_diagnostics
    simp only [h1, h2]
    unfold diagGeopotential
    rw [hPH2]
  | false =>
    have h1 := diagPotTemp_eq ds false t hT
    simp only [Bool.false_eq_true, if_false] at h1
    have hP1 : getItem (setItem ds "air_potential_temperature" (aptVar t)) "P" = .ok p := by
      simp [getItem_setItem, hP]
    have hPB1 : getItem (setItem ds "air_potential_temperature" (aptVar t)) "PB" = .ok pb := by
      simp [getItem_setItem, hPB]
    have h2 := diagPressure_eq _ false p pb hP1 hPB1
    simp only [Bool.false_eq_true, if_false] at h2
    have hPH2 : getItem (setItem (setItem ds "air_potential_temperature" (aptVar t))
        "air_pressure" (apVar p pb)) "PH" = .error (.keyError "PH") := by
      simp [getItem_setItem, hPHe]
    unfold calc_base_diagnostics
    simp only [h1, h2]
    unfold diagGeopotential
    rw [hPH2]

/-- Witness for the amended claim C1 at a concrete dataset. -/
theorem c1_witness :
    calc_base_diagnostics dsNoPH false = .error (.keyError "PH") :=
  c1_amended dsNoPH false tVarEx pVarEx pbVarEx rfl rfl rfl rfl

/-- Claim C3: for every dataset containing `T`, `P`, `PB`, `PH`, `PHB` as
numeric arrays of matching shape, `calc_base_diagnostics` succeeds and
produces, element-wise and exactly, `air_potential_temperature = T + 300`,
`air_pressure = P + PB`, `geopotential = PH + PHB`, and
`geopotential_height = geopotential / 9.81`. -/
theorem c3_theorem (ds : Dataset) (drop : Bool) (t p pb ph phb : DVar)
    (hT : getItem ds "T" = .ok t) (hP : getItem ds "P" = .ok p)
    (hPB : getItem ds "PB" = .ok pb) (hPH : getItem ds "PH" = .ok ph)
    (hPHB : getItem ds "PHB" = .ok phb)
    (_hlp : p.data.length = t.data.length) (_hlpb : pb.data.length = t.data.length)
    (_hlph : ph.data.length = t.data.length) (_hlphb : phb.data.length = t.data.length) :
    calc_base_diagnostics ds drop = .ok (calcOutput ds drop t p pb ph phb) ∧
    getItem (calcOutput ds drop t p pb ph phb) "air_potential_temperature"
      = .ok (aptVar t) ∧
    getItem (calcOutput ds drop t p pb ph phb) "air_pressure" = .ok (apVar p pb) ∧
    getItem (calcOutput ds drop t p pb ph phb) "geopotential" = .ok (geoVar ph phb) ∧
    getItem (calcOutput ds drop t p pb ph phb) "geopotential_height"
      = .ok (geoHtVar (geoVar ph phb)) ∧
    (aptVar t).data = t.data.map (fun q => q + 300) ∧
    (apVar p pb).data = List.zipWith (fun a b => a + b) p.data pb.data ∧
    (geoVar ph phb).data = List.zipWith (fun a b => a + b) ph.data phb.data ∧
    (geoHtVar (geoVar ph phb)).data
      = (geoVar ph phb).data.map (fun q => q / (981 / 100 : ℚ)) := by
  refine ⟨calc_base_diagnostics_eq ds drop t p pb ph phb hT hP hPB hPH hPHB,
    ?_, ?_, ?_, ?_, rfl, rfl, rfl, rfl⟩ <;>
    cases drop <;> simp [calcOutput, getItem_setItem, getItem_delItem]

/-- Witness for claim C3 at a concrete dataset with `drop = true`. -/
theorem c3_witness :
    calc_base_diagnostics dsAll true
      = .ok (calcOutput dsAll true tVarEx pVarEx pbVarEx phVarEx phbVarEx) ∧
    getItem (calcOutput dsAll true tVarEx pVarEx pbVarEx phVarEx phbVarEx)
      "air_potential_temperature" = .ok (aptVar tVarEx) ∧
    getItem (calcOutput dsAll true tVarEx pVarEx pbVarEx phVarEx phbVarEx)
      "air_pressure" = .ok (apVar pVarEx pbVarEx) :=
  have h := c3_theorem dsAll true tVarEx pVarEx pbVarEx phVarEx phbVarEx
    rfl rfl rfl rfl rfl rfl rfl rfl rfl
  ⟨h.1, h.2.1, h.2.2.1⟩

/-- Claim C7: on a dataset containing all five raw variables,
`calc_base_diagnostics` with `drop = true` removes `T`, `P`, `PB`, `PH`,
`PHB` from the output, and with `drop = false` leaves all five present and
unchanged. -/
theorem c7_theorem (ds : Dataset) (t p pb ph phb : DVar)
    (hT : getItem ds "T" = .ok t) (hP : getItem ds "P" = .ok p)
    (hPB : getItem ds "PB" = .ok pb) (hPH : getItem ds "PH" = .ok ph)
    (hPHB : getItem ds "PHB" = .ok phb) :
    (calc_base_diagnostics ds true = .ok (calcOutput ds true t p pb ph phb) ∧
     getItem (calcOutput ds true t p pb ph phb) "T" = .error (.keyError "T") ∧
     getItem (calcOutput ds true t p pb ph phb) "P" = .error (.keyError "P") ∧
     getItem (calcOutput ds true t p pb ph phb) "PB" = .error (.keyError "PB") ∧
     getItem (calcOutput ds true t p pb ph phb) "PH" = .error (.keyError "PH") ∧
     getItem (calcOutput ds true t p pb ph phb) "PHB" = .error (.keyError "PHB")) ∧
    (calc_base_diagnostics ds false = .ok (calcOutput ds false t p pb ph phb) ∧
     getItem (calcOutput ds false t p pb ph phb) "T" = .ok t ∧
     getItem (calcOutput ds false t p pb ph phb) "P" = .ok p ∧
     getItem (calcOutput ds false t p pb ph phb) "PB" = .ok pb ∧
     getItem (calcOutput ds false t p pb ph phb) "PH" = .ok ph ∧
     getItem (calcOutput ds false t p pb ph phb) "PHB" = .ok phb) := by
  refine ⟨⟨calc_base_diagnostics_eq ds true t p pb ph phb hT hP hPB hPH hPHB,
    ?_, ?_, ?_, ?_, ?_⟩,
    ⟨calc_base_diagnostics_eq ds false t p pb ph phb hT hP hPB hPH hPHB,
    ?_, ?_, ?_, ?_, ?_⟩⟩ <;>
    simp [calcOutput, getItem_setItem, getItem_delItem, hT, hP, hPB, hPH, hPHB]

/-- Witness for claim C7 at a concrete dataset. -/
theorem c7_witness :
    getItem (calcOutput dsAll true tVarEx pVarEx pbVarEx phVarEx phbVarEx) "T"
      = .error (.keyError "T") ∧
    getItem (calcOutput dsAll false tVarEx pVarEx pbVarEx phVarEx phbVarEx) "T"
      = .ok tVarEx :=
  have h := c7_theorem dsAll tVarEx pVarEx pbVarEx phVarEx phbVarEx rfl rfl rfl rfl rfl
  ⟨h.1.2.1, h.2.2.1⟩

/-- Claim C10: on a dataset containing all five raw variables,
`calc_base_diagnostics` touches only the five source variables and the
four derived names; every other variable keeps its exact data and
attributes, and the dataset-level attributes are unchanged. -/
theorem c10_theorem (ds : Dataset) (drop : Bool) (name : String) (t p pb ph phb : DVar)
    (hT : getItem ds "T" = .ok t) (hP : getItem ds "P" = .ok p)
    (hPB : getItem ds "PB" = .ok pb) (hPH : getItem ds "PH" = .ok ph)
    (hPHB : getItem ds "PHB" = .ok phb)
    (hname : ¬ name ∈ (["T", "P", "PB", "PH", "PHB", "air_potential_temperature",
      "air_pressure", "geopotential", "geopotential_height"] : List String)) :
    calc_base_diagnostics ds drop = .ok (calcOutput ds drop t p pb ph phb) ∧
    getItem (calcOutput ds drop t p pb ph phb) name = getItem ds name ∧
    (calcOutput ds drop t p pb ph phb).attrs = ds.attrs := by
  simp only [List.mem_cons, List.mem_singleton, not_or] at hname
  obtain ⟨h1, h2, h3, h4, h5, h6, h7, h8, h9, -⟩ := hname
  refine ⟨calc_base_diagnostics_eq ds drop t p pb ph phb hT hP hPB hPH hPHB, ?_, ?_⟩
  · cases drop <;>
      simp [calcOutput, getItem_setItem, getItem_delItem, Ne.symm h1, Ne.symm h2,
        Ne.symm h3, Ne.symm h4, Ne.symm h5, Ne.symm h6, Ne.symm h7, Ne.symm h8,
        Ne.symm h9]
  · cases drop <;> simp [calcOutput, attrs_setItem, attrs_delItem]

/-- Witness for claim C10 at a concrete dataset and the bystander
variable `Q2`. -/
theorem c10_witness :
    calc_base_diagnostics dsAll true
      = .ok (calcOutput dsAll true tVarEx pVarEx pbVarEx phVarEx phbVarEx) ∧
    getItem (calcOutput dsAll true tVarEx pVarEx pbVarEx phVarEx phbVarEx) "Q2"
      = getItem dsAll "Q2" ∧
    (calcOutput dsAll true tVarEx pVarEx pbVarEx phVarEx phbVarEx).attrs = dsAll.attrs :=
  c10_theorem dsAll true "Q2" tVarEx pVarEx pbVarEx phVarEx phbVarEx
    rfl rfl rfl rfl rfl (by decide)

/-- Claim C4: every `open_dataset` call with `destagger = true` on a dataset
whose diagnostics succeed COMPLETES NORMALLY, returning the
`NotImplementedError` exception object as its value (io_plugin.py line 145
writes `return`, not `raise`); no cleaned dataset is produced, but no error
propagates either, exhibiting the divergence from the claimed hard
failure. -/
theorem c4_theorem (fixup : Dataset → Except PyErr Dataset) (ds : Dataset)
    (drop : Bool) (t p pb ph phb : DVar)
    (hT : getItem ds "T" = .ok t) (hP : getItem ds "P" = .ok p)
    (hPB : getItem ds "PB" = .ok pb) (hPH : getItem ds "PH" = .ok ph)
    (hPHB : getItem ds "PHB" = .ok phb) :
    open_dataset fixup ds true drop
      = .ok (.exc (.notImplementedError "Automatic destaggering not yet implemented")) := by
  unfold open_dataset
  rw [calc_base_diagnostics_eq ds drop t p pb ph phb hT hP hPB hPH hPHB]
  rfl

/-- Witness for claim C4 at a concrete dataset. -/
theorem c4_witness :
    open_dataset idFixup dsAll true true
      = .ok (.exc (.notImplementedError "Automatic destaggering not yet implemented")) :=
  c4_theorem idFixup dsAll true tVarEx pVarEx pbVarEx phVarEx phbVarEx
    rfl rfl rfl rfl rfl

/-- Claim C2: `add_horizontal_projection_coordinates` is claimed to attach
the four coordinate arrays to their matching dimensions, add the grid
mapping, and tag the variables; evaluated on a well-formed Lambert WRF
dataset it instead raises `ValueError` at the very first coordinate
assignment, because the source tuple-unpacks the dict returned by
`_wrf_grid_from_dataset` (binding its key strings, not the arrays) and,
further on, assigns the `south_north` value to the `west_east` coordinate
(grid.py lines 102-116). -/
theorem c2_theorem :
    add_horizontal_projection_coordinates trf0 dsLambert
      = .error (.valueError "different number of dimensions on data and dims") := by
  rfl

/-- Claim C5: the projection-family selection of the grid derivation.
Discriminant 1 yields the Lambert parameter set without a `center_lon`
key; discriminant 2 yields polar stereographic with `lat_ts` set to the
original `lat_1`, `lat_0 = 90`, and no `lat_1`, `lat_2`, `center_lon`;
discriminant 3 yields Mercator with `lon_0` set to the original
`center_lon` and no `lat_0`, `lat_1`, `lat_2`, `center_lon`; any other
discriminant raises `NotImplementedError`. -/
theorem c5_theorem (attrs : WRFAttrs) :
    (wrf_proj_id attrs = 1 →
      wrf_select_projection (wrf_base_pargs attrs) (wrf_proj_id attrs)
        = .ok { wrf_base_pargs attrs with proj := some "lcc", center_lon := none }) ∧
    (wrf_proj_id attrs = 2 →
      wrf_select_projection (wrf_base_pargs attrs) (wrf_proj_id attrs)
        = .ok { wrf_base_pargs attrs with
                  proj := some "stere"
                  lat_ts := (wrf_base_pargs attrs).lat_1
                  lat_0 := some 90
                  lat_1 := none
                  lat_2 := none
                  center_lon := none }) ∧
    (wrf_proj_id attrs = 3 →
      wrf_select_projection (wrf_base_pargs attrs) (wrf_proj_id attrs)
        = .ok { wrf_base_pargs attrs with
                  proj := some "merc"
                  lat_ts := (wrf_base_pargs attrs).lat_1
                  lon_0 := (wrf_base_pargs attrs).center_lon
                  lat_0 := none
                  lat_1 := none
                  lat_2 := none
                  center_lon := none }) ∧
    (wrf_proj_id attrs ≠ 1 → wrf_proj_id attrs ≠ 2 → wrf_proj_id attrs ≠ 3 →
      wrf_select_projection (wrf_base_pargs attrs) (wrf_proj_id attrs)
        = .error (.notImplementedError
            ("WRF proj not implemented yet: " ++ toString (wrf_proj_id attrs)))) := by
  refine ⟨?_, ?_, ?_, ?_⟩
  · intro h
    rw [h]
    simp [wrf_select_projection]
  · intro h
    rw [h]
    simp [wrf_select_projection]
  · intro h
    rw [h]
    simp [wrf_select_projection]
  · intro h1 h2 h3
    simp [wrf_select_projection, h1, h2, h3]

/-- Witness for claim C5 at four concrete attribute sets covering the four
discriminant cases. -/
theorem c5_witness :
    wrf_select_projection (wrf_base_pargs attrsLambert) (wrf_proj_id attrsLambert)
      = .ok { wrf_base_pargs attrsLambert with proj := some "lcc", center_lon := none } ∧
    wrf_select_projection (wrf_base_pargs attrsStere) (wrf_proj_id attrsStere)
      = .ok { wrf_base_pargs attrsStere with
                proj := some "stere"
                lat_ts := (wrf_base_pargs attrsStere).lat_1
                lat_0 := some 90
                lat_1 := none
                lat_2 := none
                center_lon := none } ∧
    wrf_select_projection (wrf_base_pargs attrsMerc) (wrf_proj_id attrsMerc)
      = .ok { wrf_base_pargs attrsMerc with
                proj := some "merc"
                lat_ts := (wrf_base_pargs attrsMerc).lat_1
                lon_0 := (wrf_base_pargs attrsMerc).center_lon
                lat_0 := none
                lat_1 := none
                lat_2 := none
                center_lon := none } ∧
    wrf_select_projection (wrf_base_pargs attrsBad) (wrf_proj_id attrsBad)
      = .error (.notImplementedError
          ("WRF proj not implemented yet: " ++ toString (wrf_proj_id attrsBad))) :=
  ⟨(c5_theorem attrsLambert).1 rfl,
   (c5_theorem attrsStere).2.1 rfl,
   (c5_theorem attrsMerc).2.2.1 rfl,
   (c5_theorem attrsBad).2.2.2 (by decide) (by decide) (by decide)⟩

/-- Claim C6, counterexample: on the concrete Lambert grid with nx = 10,
dx = 3000 (center transformed to the origin), the program yields
`west_east[0] = -13500` and `west_east_stag[0] = -15000`, but the claimed
relation `west_east_stag[i] = west_east[i] - 1.5*dx + i*dx` demands
`-13500 - 4500 + 0 = -18000` at i = 0, which is false. -/
theorem c6_counterexample :
    gridHeadsLambert = .ok (some (-13500), some (-15000)) ∧
    ¬ ((-15000 : ℚ) = -13500 - (3/2 : ℚ) * 3000 + 0 * 3000) := by
  constructor
  · simp only [gridHeadsLambert, _wrf_grid_from_dataset, dsLambert, attrsLambert, trf0,
      wrf_base_pargs, wrf_proj_id, wrf_select_projection, wrf_dx, wrf_dy, dimsLookupG,
      grid_coord_arrays, alookup, pyArrHead]
    norm_num
    simp [Except.map, Except.bind, bind, alookup, pyArrHead, List.range_succ_eq_map]
    norm_num
  · norm_num

/-- Claim C6, amended: the unstaggered `west_east` array has length nx and
the staggered `west_east_stag` array has length nx + 1 (analogously
south_north with ny), and the staggered array satisfies
`west_east_stag[i] = west_east[i] - 0.5*dx` for every i < nx (the claimed
`- 1.5*dx + i*dx` form holds only at i = 1); concretely
`west_east_stag[0] = west_east[0] - 0.5*dx`. -/
theorem c6_theorem (x0 y0 dx dy : ℚ) (nx ny : Nat) :
    (grid_coord_arrays x0 y0 dx dy nx ny).west_east.length = nx ∧
    (grid_coord_arrays x0 y0 dx dy nx ny).west_east_stag.length = nx + 1 ∧
    (grid_coord_arrays x0 y0 dx dy nx ny).south_north.length = ny ∧
    (grid_coord_arrays x0 y0 dx dy nx ny).south_north_stag.length = ny + 1 ∧
    (∀ i : Nat, i < nx →
      (grid_coord_arrays x0 y0 dx dy nx ny).west_east_stag.getD i 0
        = (grid_coord_arrays x0 y0 dx dy nx ny).west_east.getD i 0 - (1/2 : ℚ) * dx) ∧
    (0 < nx →
      (grid_coord_arrays x0 y0 dx dy nx ny).west_east_stag.getD 0 0
        = (grid_coord_arrays x0 y0 dx dy nx ny).west_east.getD 0 0 - (1/2 : ℚ) * dx) := by
  refine ⟨?_, ?_, ?_, ?_, ?_, ?_⟩
  · simp [grid_coord_arrays]
  · simp [grid_coord_arrays]
  · simp [grid_coord_arrays]
  · simp [grid_coord_arrays]
  · intro i hi
    rw [grid_west_east_getD x0 y0 dx dy nx ny i hi,
      grid_west_east_stag_getD x0 y0 dx dy nx ny i (Nat.lt_succ_of_lt hi)]
    ring
  · intro h
    rw [grid_west_east_getD x0 y0 dx dy nx ny 0 h,
      grid_west_east_stag_getD x0 y0 dx dy nx ny 0 (Nat.lt_succ_of_lt h)]
    ring

/-- Witness for the amended claim C6 at the concrete grid
nx = 10, ny = 8, dx = dy = 3000. -/
theorem c6_witness :
    (grid_coord_arrays (-13500) (-10500) 3000 3000 10 8).west_east.length = 10 ∧
    (grid_coord_arrays (-13500) (-10500) 3000 3000 10 8).west_east_stag.length = 10 + 1 ∧
    (grid_coord_arrays (-13500) (-10500) 3000 3000 10 8).west_east_stag.getD 0 0
      = (grid_coord_arrays (-13500) (-10500) 3000 3000 10 8).west_east.getD 0 0
        - (1/2 : ℚ) * 3000 :=
  ⟨(c6_theorem (-13500) (-10500) 3000 3000 10 8).1,
   (c6_theorem (-13500) (-10500) 3000 3000 10 8).2.1,
   (c6_theorem (-13500) (-10500) 3000 3000 10 8).2.2.2.2.2 (by decide)⟩

/-- Claim C8: the reconciler decodes the byte-string timestamps of a
recognized time coordinate into temporal values (attributes and encoding
preserved); two well-formed timestamps one hour apart decode to values
exactly 3600 seconds apart; and a malformed entry makes the whole decode
fail, upon which the coordinate is left unchanged and a warning is emitted
instead of an exception. -/
theorem c8_theorem :
    (∀ (name : String) (v : CVar) (bs : List String) (ts : List Nat),
      name ∈ _TIME_COORD_VARS → v.data = .bytes bs → to_datetime bs = some ts →
      fixup_time_coord name v = ({ v with data := .times ts }, [])) ∧
    (∀ (name : String) (v : CVar) (bs : List String),
      name ∈ _TIME_COORD_VARS → v.data = .bytes bs → to_datetime bs = none →
      fixup_time_coord name v = (v, ["Failed to parse time coordinate: " ++ name])) ∧
    (∃ t1 t2 : Nat,
      to_datetime ["2020-01-01_00:00:00", "2020-01-01_01:00:00"] = some [t1, t2] ∧
      t2 = t1 + 3600) ∧
    to_datetime ["2020-01-01_00:00:00", "not-a-date"] = none := by
  refine ⟨?_, ?_, ⟨63739872000, 63739875600, by rfl, by rfl⟩, by rfl⟩
  · intro name v bs ts hmem hdata hdt
    simp [fixup_time_coord, hmem, hdata, hdt]
  · intro name v bs hmem hdata hdt
    simp [fixup_time_coord, hmem, hdata, hdt]

/-- Witness for claim C8 at a concrete time coordinate: the well-formed pair
decodes to values 3600 apart, the malformed pair leaves the coordinate
unchanged with a warning. -/
theorem c8_witness :
    fixup_time_coord "Times" timesVarEx
      = ({ timesVarEx with data := .times [63739872000, 63739875600] }, []) ∧
    fixup_time_coord "Times" timesVarBad
      = (timesVarBad, ["Failed to parse time coordinate: Times"]) :=
  ⟨c8_theorem.1 "Times" timesVarEx ["2020-01-01_00:00:00", "2020-01-01_01:00:00"]
      [63739872000, 63739875600] (by decide) rfl (by rfl),
   c8_theorem.2.1 "Times" timesVarBad ["2020-01-01_00:00:00", "not-a-date"]
      (by decide) rfl (by rfl)⟩

/-- Claim C9: the dimension-coordinate promotion step (`ZNU` to
`bottom_top`, `ZNW` to `bottom_top_stag`, `XTIME` to `Time`, each guarded
on existence, 1-dimensionality and the dimension being present, deleting
the source afterwards) is idempotent: a second application is a no-op,
because each source coordinate is then absent or the guard fails exactly
as before. -/
theorem c9_theorem (ds : CDataset) :
    promote_dim_coords (promote_dim_coords ds) = promote_dim_coords ds := by
  unfold promote_dim_coords
  have hZNU : promoteGuard (promote_one (promote_one (promote_one ds "ZNU" "bottom_top")
      "ZNW" "bottom_top_stag") "XTIME" "Time") "ZNU" "bottom_top" = none := by
    rw [promoteGuard_frame _ "XTIME" "Time" "ZNU" "bottom_top" (by decide) (by decide),
      promoteGuard_frame _ "ZNW" "bottom_top_stag" "ZNU" "bottom_top"
        (by decide) (by decide)]
    exact promoteGuard_self_none ds "ZNU" "bottom_top"
  rw [promote_one_noop _ "ZNU" "bottom_top" hZNU]
  have hZNW : promoteGuard (promote_one (promote_one (promote_one ds "ZNU" "bottom_top")
      "ZNW" "bottom_top_stag") "XTIME" "Time") "ZNW" "bottom_top_stag" = none := by
    rw [promoteGuard_frame _ "XTIME" "Time" "ZNW" "bottom_top_stag"
      (by decide) (by decide)]
    exact promoteGuard_self_none _ "ZNW" "bottom_top_stag"
  rw [promote_one_noop _ "ZNW" "bottom_top_stag" hZNW]
  exact promote_one_noop _ "XTIME" "Time" (promoteGuard_self_none _ "XTIME" "Time")
